import Mathlib

/-!
Verification of the commodities ETL scripts.

Shallow embedding of the transform and upload logic of
src/supabase_uploader.py, src/upload_to_supabase.py and the request loop
shared by src/usda_fetcher.py and src/usda_historical_fetcher.py.

Modelling conventions:
* a pandas cell is a `Cell`: missing (NaN or None), an integer, a float
  (modelled as an exact decimal `Dec`), a boolean, a string, or a
  timestamp;
* Python float values are modelled by `PyFloat` (an exact decimal or
  NaN); the
  builtin float conversion of a string is modelled by `parsePyFloat`,
  which implements the decimal-literal core of the builtin (optional
  sign, digits with optional fraction and exponent, surrounding
  whitespace stripped);
* a raising Python call is an `Except String` value;
* the wall clock read by datetime.now().isoformat() is passed in as an
  explicit argument named `now`.
-/

/-- An exact decimal number, the idealization used here for a Python
float: the value m times ten to the e. A value produced by `normDec` is
canonical (m is not divisible by ten unless the value is zero, in which
case both fields are zero), so structural equality of canonical values
coincides with numeric equality. -/
structure Dec where
  m : Int
  e : Int
deriving DecidableEq

/-- Worker for `normDec`: strip factors of ten from the mantissa, with
enough fuel to strip all of them. -/
def stripTens : Nat → Int → Int → Dec
  | 0, m, e => ⟨m, e⟩
  | fuel + 1, m, e =>
    if m % 10 == 0 && m != 0 then stripTens fuel (m / 10) (e + 1) else ⟨m, e⟩

/-- Canonical form of the decimal m times ten to the e. -/
def normDec (m e : Int) : Dec :=
  if m == 0 then ⟨0, 0⟩ else stripTens m.natAbs m e

/-- A pandas scalar cell value. `na` covers both NaN and None (exactly the
values on which pd.isna is true). -/
inductive Cell where
  | na : Cell
  | int (n : Int) : Cell
  | num (q : Dec) : Cell
  | bool (b : Bool) : Cell
  | str (s : String) : Cell
  | ts (y m d : Nat) : Cell
deriving DecidableEq

/-- Embeds pd.isna on scalar cells. -/
def pd_isna : Cell → Bool
  | .na => true
  | _ => false

/-- A Python float value: NaN or an exact decimal. -/
inductive PyFloat where
  | nan : PyFloat
  | val (q : Dec) : PyFloat
deriving DecidableEq

/-- Numeric value of a list of decimal digit characters. -/
def digitsVal (cs : List Char) : Nat :=
  cs.foldl (fun n c => n * 10 + (c.toNat - 48)) 0

/-- True when every character of the list is a decimal digit. -/
def allDigits (cs : List Char) : Bool :=
  cs.all Char.isDigit

/-- Worker for `splitSlash`: split a character list at every slash. -/
def splitSlashGo : List Char → List Char → List (List Char)
  | [], acc => [acc.reverse]
  | c :: cs, acc =>
    if c == '/' then acc.reverse :: splitSlashGo cs [] else splitSlashGo cs (c :: acc)

/-- Split a character list at every slash character. -/
def splitSlash (cs : List Char) : List (List Char) :=
  splitSlashGo cs []

/-- True when the first list is an initial segment of the second. -/
def startsWithL : List Char → List Char → Bool
  | [], _ => true
  | _ :: _, [] => false
  | a :: as, b :: bs => a == b && startsWithL as bs

/-- True when the first list occurs as a contiguous sublist of the second.
Embeds the substring test done by pandas str.contains with a plain
(non-regex-meaningful) pattern. -/
def hasSubL (needle : List Char) : List Char → Bool
  | [] => startsWithL needle []
  | c :: rest => startsWithL needle (c :: rest) || hasSubL needle rest

/-- Embeds df[col].str.contains(pat, na=False): true only on string cells
that contain the pattern; missing and non-string cells give False. -/
def cellContains (c : Cell) (pat : String) : Bool :=
  match c with
  | .str s => hasSubL pat.toList s.toList
  | _ => false

/-- Gregorian leap-year test, as used by the datetime library. -/
def isLeap (y : Nat) : Bool :=
  (y % 4 == 0 && y % 100 != 0) || y % 400 == 0

/-- Number of days in a month, as validated by the datetime constructor. -/
def daysInMonth (y m : Nat) : Nat :=
  if m == 2 then (if isLeap y then 29 else 28)
  else if m == 4 || m == 6 || m == 9 || m == 11 then 30
  else 31

/-- A calendar date (year, month, day). -/
structure Ymd where
  y : Nat
  m : Nat
  d : Nat
deriving DecidableEq

/-- Validity of a calendar date, as enforced by the datetime constructor
(year 1..9999, month 1..12, day within the month). -/
def validYmd (y m d : Nat) : Bool :=
  1 ≤ y && y ≤ 9999 && 1 ≤ m && m ≤ 12 && 1 ≤ d && d ≤ daysInMonth y m

/-- A strptime numeric field: between minLen and maxLen characters, all
digits. -/
def fieldNat (cs : List Char) (minLen maxLen : Nat) : Option Nat :=
  if minLen ≤ cs.length && cs.length ≤ maxLen && allDigits cs then
    some (digitsVal cs)
  else
    none

/-- Embeds strptime with format %m/%d/%Y as used by pd.to_datetime:
one-or-two digit month and day, exactly four digit year, full-string
match, then calendar validation. -/
def parseMDY4 (s : String) : Option Ymd :=
  match splitSlash s.toList with
  | [mp, dp, yp] =>
    match fieldNat mp 1 2, fieldNat dp 1 2, fieldNat yp 4 4 with
    | some m, some d, some y =>
      if validYmd y m d then some ⟨y, m, d⟩ else none
    | _, _, _ => none
  | _ => none

/-- Embeds strptime with format %m/%d/%y as used by pd.to_datetime:
one-or-two digit month and day, exactly two digit year mapped through the
POSIX pivot (00-68 means 2000-2068, 69-99 means 1969-1999), full-string
match, then calendar validation. -/
def parseMDY2 (s : String) : Option Ymd :=
  match splitSlash s.toList with
  | [mp, dp, yp] =>
    match fieldNat mp 1 2, fieldNat dp 1 2, fieldNat yp 2 2 with
    | some m, some d, some yy =>
      let y := if yy ≤ 68 then 2000 + yy else 1900 + yy
      if validYmd y m d then some ⟨y, m, d⟩ else none
    | _, _, _ => none
  | _ => none

/-- Zero-padded decimal rendering of a natural number. -/
def padNum (width n : Nat) : String :=
  let s := toString n
  String.mk (List.replicate (width - s.length) '0') ++ s

/-- Embeds strftime with format %Y-%m-%d on a parsed date. -/
def ymdISO (d : Ymd) : String :=
  padNum 4 d.y ++ "-" ++ padNum 2 d.m ++ "-" ++ padNum 2 d.d

/-- Exponent digits of a float literal: nonempty, all digits. -/
def expDigits (cs : List Char) : Option Nat :=
  if !cs.isEmpty && allDigits cs then some (digitsVal cs) else none

/-- Signed exponent of a float literal. -/
def parseExp : List Char → Option Int
  | '-' :: r => (expDigits r).map (fun n => -(n : Int))
  | '+' :: r => (expDigits r).map (fun n => (n : Int))
  | r => (expDigits r).map (fun n => (n : Int))

/-- Unsigned part of a float literal: digits, optional fraction, optional
exponent; at least one mantissa digit; nothing may remain. Returns the
unsigned integer mantissa and the power-of-ten exponent. -/
def parseUnsignedFloat (cs : List Char) : Option (Nat × Int) :=
  let ipr := cs.span Char.isDigit
  let fpr :=
    match ipr.2 with
    | '.' :: r => r.span Char.isDigit
    | _ => ([], ipr.2)
  if ipr.1.isEmpty && fpr.1.isEmpty then none
  else
    let mant : Nat := digitsVal ipr.1 * 10 ^ fpr.1.length + digitsVal fpr.1
    let base : Int := -(fpr.1.length : Int)
    match fpr.2 with
    | [] => some (mant, base)
    | e :: r3 =>
      if e == 'e' || e == 'E' then
        (parseExp r3).map (fun k => (mant, base + k))
      else none

/-- Strip surrounding whitespace from a character list, as str.strip
does. -/
def trimL (cs : List Char) : List Char :=
  ((cs.dropWhile Char.isWhitespace).reverse.dropWhile Char.isWhitespace).reverse

/-- Embeds the decimal-literal core of the Python float builtin on a
string: surrounding whitespace stripped, optional sign, then an unsigned
float literal, normalized to a canonical decimal. Returns none exactly
when the builtin would raise ValueError on such a literal. -/
def parsePyFloat (s : String) : Option Dec :=
  match trimL s.toList with
  | '-' :: rest => (parseUnsignedFloat rest).map (fun p => normDec (-(p.1 : Int)) p.2)
  | '+' :: rest => (parseUnsignedFloat rest).map (fun p => normDec (p.1 : Int) p.2)
  | cs => (parseUnsignedFloat cs).map (fun p => normDec (p.1 : Int) p.2)

/-- Embeds the Python float builtin applied to a cell value: NaN stays
NaN, numbers convert exactly, strings go through the literal parser
(none means the call raises), a timestamp raises. -/
def pyFloatOfCell : Cell → Option PyFloat
  | .na => some .nan
  | .int n => some (.val (normDec n 0))
  | .num q => some (.val q)
  | .bool b => some (.val (normDec (if b then 1 else 0) 0))
  | .str s => (parsePyFloat s).map .val
  | .ts _ _ _ => none

/-- Error-propagating map over a list, in left-to-right order: the first
error aborts the traversal. Embeds a Python loop whose body may raise. -/
def mapExcept (f : α → Except ε β) : List α → Except ε (List β)
  | [] => .ok []
  | a :: as =>
    match f a with
    | .error e => .error e
    | .ok b =>
      match mapExcept f as with
      | .error e => .error e
      | .ok bs => .ok (b :: bs)

/-- Error-propagating filterMap over a list, in left-to-right order.
Embeds a Python loop that may raise and appends conditionally. -/
def filterMapExcept (f : α → Except ε (Option β)) : List α → Except ε (List β)
  | [] => .ok []
  | a :: as =>
    match f a with
    | .error e => .error e
    | .ok none => filterMapExcept f as
    | .ok (some b) =>
      match filterMapExcept f as with
      | .error e => .error e
      | .ok bs => .ok (b :: bs)

/-! Commodity transform: src/supabase_uploader.py, transform_commodity_data. -/

/-- A wide-format commodity row after reset_index: the formatted date (the
strftime %Y-%m-%d rendering of the datetime index value) plus the named
data columns of the frame. -/
structure CommodityRow where
  date : String
  cells : List (String × Cell)
deriving DecidableEq

/-- A long-format commodity price record (one output dict of
transform_commodity_data). -/
structure CommodityRecord where
  date : String
  commodity_symbol : String
  price : PyFloat
  unit : Option Cell
  created_at : String
deriving DecidableEq

/-- The fixed known-symbol list hardcoded in transform_commodity_data. -/
def knownSymbols : List String :=
  ["BEEF", "FC00", "GFU22", "GF", "LCAT", "LC00", "CORN", "CZ25"]

/-- One iteration of the inner symbol loop of transform_commodity_data:
emit a record when the price column is present and non-null; the unit is
the paired unit column value unless that column is absent or null. The
float conversion of the price may raise. -/
def commoditySymbolStep (now : String) (row : CommodityRow) (c : String) :
    Except String (Option CommodityRecord) :=
  match List.lookup (c ++ "_price") row.cells with
  | none => .ok none
  | some cell =>
    if pd_isna cell then .ok none
    else
      match pyFloatOfCell cell with
      | none => .error "could not convert string to float"
      | some p =>
        let u : Option Cell :=
          match List.lookup (c ++ "_unit") row.cells with
          | none => none
          | some uc => if pd_isna uc then none else some uc
        .ok (some ⟨row.date, c, p, u, now⟩)

/-- The per-row body of transform_commodity_data: the inner loop over the
fixed known-symbol list. -/
def commodityRowRecords (now : String) (row : CommodityRow) :
    Except String (List CommodityRecord) :=
  filterMapExcept (commoditySymbolStep now row) knownSymbols

/-- Embeds transform_commodity_data of src/supabase_uploader.py: iterate
the rows, and for each row the fixed symbol list, collecting the emitted
records in order. `now` is the datetime.now().isoformat() reading. -/
def transform_commodity_data (now : String) (df : List CommodityRow) :
    Except String (List CommodityRecord) :=
  match mapExcept (commodityRowRecords now) df with
  | .error e => .error e
  | .ok ls => .ok ls.flatten

/-! Cattle transform: src/supabase_uploader.py, transform_cattle_data. -/

/-- A raw cattle slaughter CSV row, restricted to the columns that
transform_cattle_data reads. The description column holds the string
label of the row (the transform only ever compares it with string
literals and stores it). -/
structure CattleRow where
  commodity : Cell
  description : String
  cls : Cell
  report_date : Cell
  slaughter_date : Cell
  volume : Cell
  unit : Cell
deriving DecidableEq

/-- A normalized cattle slaughter record (one output dict of
transform_cattle_data). The cls field embeds the source key named class. -/
structure CattleRecord where
  slaughter_date : String
  cls : Cell
  description : String
  volume : PyFloat
  unit : Cell
  created_at : String
deriving DecidableEq

/-- The cattle commodity filter of transform_cattle_data: the commodity
cell contains Cattle and does not contain Calves (missing cells fail the
positive test because of na=False). -/
def cattleFilter (r : CattleRow) : Bool :=
  cellContains r.commodity "Cattle" && !cellContains r.commodity "Calves"

/-- The four recognized descriptions of transform_cattle_data. -/
def cattleDescs : List String :=
  ["Head Slaughtered", "Live Weight", "Dressed Weight", "Total Red Meat"]

/-- The description filter of transform_cattle_data (isin on the four
recognized descriptions). -/
def descFilter (r : CattleRow) : Bool :=
  cattleDescs.contains r.description

/-- True when the row takes the report_date branch of the date lambda
(description in the Live Weight / Dressed Weight pair). -/
def isWeightDesc (r : CattleRow) : Bool :=
  r.description == "Live Weight" || r.description == "Dressed Weight"

/-- Embeds the date lambda of transform_cattle_data. Weight rows parse
report_date with format %m/%d/%Y and no coercion: a missing cell gives
NaT, an unparseable string or a non-string value raises. Other rows
parse slaughter_date with format %m/%d/%y and errors coerce: any failure
gives NaT. none models NaT. -/
def rowDate (r : CattleRow) : Except String (Option Ymd) :=
  if isWeightDesc r then
    match r.report_date with
    | .na => .ok none
    | .str s =>
      match parseMDY4 s with
      | some d => .ok (some d)
      | none => .error ("time data " ++ s ++ " does not match format")
    | _ => .error "unconvertible value for to_datetime with format"
  else
    match r.slaughter_date with
    | .str s => .ok (parseMDY2 s)
    | _ => .ok none

/-- Embeds the record-construction loop body of transform_cattle_data for
one row with its resolved date: class defaults to the literal All when
missing or empty, the volume goes through the float builtin (raising on
non-numeric strings), the date is rendered with strftime %Y-%m-%d. -/
def buildRecord (now : String) (r : CattleRow) (d : Ymd) :
    Except String CattleRecord :=
  let className : Cell :=
    if pd_isna r.cls || r.cls == .str "" then .str "All" else r.cls
  match pyFloatOfCell r.volume with
  | none => .error "could not convert string to float"
  | some v => .ok ⟨ymdISO d, className, r.description, v, r.unit, now⟩

/-- The two row filters of transform_cattle_data, applied in source
order: the cattle commodity filter, then the description filter. -/
def prepRows (rows : List CattleRow) : List CattleRow :=
  (rows.filter cattleFilter).filter descFilter

/-- Embeds transform_cattle_data of src/supabase_uploader.py: filter to
cattle rows and recognized descriptions, resolve the per-row date (the
whole call raises if any weight row has a malformed non-missing
report_date), drop rows whose resolved date is NaT, then build the
records (the whole call raises if any remaining volume is a non-numeric
string). `now` is the datetime.now().isoformat() reading. -/
def transform_cattle_data (now : String) (rows : List CattleRow) :
    Except String (List CattleRecord) :=
  let rows2 := prepRows rows
  match mapExcept (fun r => (rowDate r).map (fun d => (r, d))) rows2 with
  | .error e => .error e
  | .ok dated =>
    let valid := dated.filterMap (fun p => p.2.map (fun d => (p.1, d)))
    mapExcept (fun p => buildRecord now p.1 p.2) valid

/-! Batch upload loops: src/supabase_uploader.py, upload_to_supabase and
upload_cattle_data. The remote insert is modelled by an oracle
`succ : Nat → Nat → Bool` giving, for a one-based batch number and a
zero-based attempt number, whether that insert call succeeds. -/

/-- The start indices of the batch loop, embedding
range(0, len(records), batch_size). -/
def batchStarts (n b : Nat) : List Nat :=
  (List.range ((n + b - 1) / b)).map (fun k => k * b)

/-- Embeds the inner retry loop of the upload functions for one batch,
given the per-attempt success oracle and the number of attempts still
allowed: returns how many insert calls were made and whether one
succeeded. A success breaks out; a failure on the last allowed attempt
is logged and skipped. -/
def insertWithRetry (succ : Nat → Bool) : Nat → Nat → Nat × Bool
  | _, 0 => (0, false)
  | attempt, remaining + 1 =>
    if succ attempt then (1, true)
    else
      let r := insertWithRetry succ (attempt + 1) remaining
      (r.1 + 1, r.2)

/-- The observable outcome of processing one batch: its one-based number,
its size, the number of insert calls issued for it, and whether it was
eventually inserted. -/
structure BatchOutcome where
  batchNum : Nat
  size : Nat
  insertCalls : Nat
  succeeded : Bool
deriving DecidableEq

/-- Embeds upload_to_supabase of src/supabase_uploader.py: slice the
records into consecutive batches of 50 and run the three-attempt retry
loop on each; a batch that exhausts its attempts is skipped and the loop
moves to the next batch. -/
def upload_to_supabase (records : List α) (succ : Nat → Nat → Bool) :
    List BatchOutcome :=
  (batchStarts records.length 50).map (fun i =>
    let batch := (records.drop i).take 50
    let bn := i / 50 + 1
    let r := insertWithRetry (succ bn) 0 3
    ⟨bn, batch.length, r.1, r.2⟩)

/-- Embeds upload_cattle_data of src/supabase_uploader.py: identical
batching and retry logic against the cattle table, preceded by a
best-effort delete-all whose own success flag is only logged. -/
def upload_cattle_data (records : List α) (clearOk : Bool)
    (succ : Nat → Nat → Bool) : Bool × List BatchOutcome :=
  (clearOk,
    (batchStarts records.length 50).map (fun i =>
      let batch := (records.drop i).take 50
      let bn := i / 50 + 1
      let r := insertWithRetry (succ bn) 0 3
      ⟨bn, batch.length, r.1, r.2⟩))

/-- Total number of insert calls issued by an upload run. -/
def totalInsertCalls (out : List BatchOutcome) : Nat :=
  (out.map (fun o => o.insertCalls)).sum

/-! Request loop: the _make_request method, line-identical (up to one
debug log) in src/usda_fetcher.py and src/usda_historical_fetcher.py.
The network is modelled by an oracle giving the response to the i-th
GET call. -/

/-- The response observed by one session.get call, split by how the loop
body of _make_request treats it: status 200 returns, status 429 sleeps
and increments the retries counter, any other status below 400 makes
raise_for_status a no-op so the body falls through and the loop repeats
without touching the counter, a status of 400 or above makes
raise_for_status raise an HTTPError, and the GET itself may raise a
RequestException. -/
inductive HttpResp where
  | success (body : String) : HttpResp
  | rateLimited (retryAfter : Option Nat) : HttpResp
  | otherOk (code : Nat) : HttpResp
  | httpError (code : Nat) : HttpResp
  | netError (msg : String) : HttpResp
deriving DecidableEq

instance {ε α : Type} [DecidableEq ε] [DecidableEq α] : DecidableEq (Except ε α) := fun a b =>
  match a, b with
  | .ok x, .ok y =>
    if h : x = y then .isTrue (h ▸ rfl) else .isFalse (fun hc => h (by cases hc; rfl))
  | .error x, .error y =>
    if h : x = y then .isTrue (h ▸ rfl) else .isFalse (fun hc => h (by cases hc; rfl))
  | .ok _, .error _ => .isFalse (fun hc => Except.noConfusion hc)
  | .error _, .ok _ => .isFalse (fun hc => Except.noConfusion hc)

/-- The observable behaviour of a prefix of one _make_request call: the
outcome when the call has finished within the observed loop iterations
(none when the loop is still running), the number of GET calls made, and
the sleep durations performed in order. -/
structure ReqTrace where
  outcome : Option (Except String String)
  calls : Nat
  sleeps : List Nat
deriving DecidableEq

/-- Embeds the while loop of _make_request as a step-indexed execution:
steps bounds how many loop iterations are observed (it is observation
fuel only, distinct from the retry budget, because the loop need not
terminate). Each iteration first tests retries < maxRetries, exiting
with Max retries exceeded otherwise. Then one GET is made: a 200
returns the body; a 429 sleeps for the Retry-After header value
(default 60) and increments the retries counter; a non-200 status below
400 falls through the raise_for_status no-op, repeating the loop with
the counter unchanged; an HTTPError from a status of 400 or above, or a
network error, increments the counter, re-raises if the counter just
reached maxRetries, and otherwise sleeps two to the power of the new
counter value. -/
def makeRequestSteps (resp : Nat → HttpResp) (maxRetries : Nat) :
    Nat → Nat → Nat → ReqTrace
  | 0, _, retries =>
    if maxRetries ≤ retries then ⟨some (.error "Max retries exceeded"), 0, []⟩
    else ⟨none, 0, []⟩
  | steps + 1, i, retries =>
    if maxRetries ≤ retries then ⟨some (.error "Max retries exceeded"), 0, []⟩
    else
      match resp i with
      | .success body => ⟨some (.ok body), 1, []⟩
      | .rateLimited ra =>
        let r := makeRequestSteps resp maxRetries steps (i + 1) (retries + 1)
        ⟨r.outcome, r.calls + 1, ra.getD 60 :: r.sleeps⟩
      | .otherOk _ =>
        let r := makeRequestSteps resp maxRetries steps (i + 1) retries
        ⟨r.outcome, r.calls + 1, r.sleeps⟩
      | .httpError code =>
        if retries + 1 == maxRetries then ⟨some (.error ("HTTPError " ++ toString code)), 1, []⟩
        else
          let r := makeRequestSteps resp maxRetries steps (i + 1) (retries + 1)
          ⟨r.outcome, r.calls + 1, 2 ^ (retries + 1) :: r.sleeps⟩
      | .netError msg =>
        if retries + 1 == maxRetries then ⟨some (.error msg), 1, []⟩
        else
          let r := makeRequestSteps resp maxRetries steps (i + 1) (retries + 1)
          ⟨r.outcome, r.calls + 1, 2 ^ (retries + 1) :: r.sleeps⟩

/-- Embeds _make_request observed for a given number of loop iterations:
the retries counter starts at zero (the default maxRetries in the
source is 3). -/
def make_request (resp : Nat → HttpResp) (steps : Nat) (maxRetries : Nat := 3) : ReqTrace :=
  makeRequestSteps resp maxRetries steps 0 0

/-! CSV routing and JSON cleaning: src/upload_to_supabase.py. -/

/-- Embeds clean_data_for_json of src/upload_to_supabase.py: missing
values (NaN or None) become null; int and float values (and booleans,
which the isinstance test accepts because bool is an int subtype) are
returned unchanged; anything else is replaced by its str() rendering. -/
def clean_data_for_json : Cell → Cell
  | .na => .na
  | .int n => .int n
  | .num q => .num q
  | .bool b => .bool b
  | .str s => .str s
  | .ts y m d => .str (padNum 4 y ++ "-" ++ padNum 2 m ++ "-" ++ padNum 2 d ++ " 00:00:00")

/-- The isinstance(value, (int, float)) test of clean_data_for_json
(true on int, float and bool values). -/
def isIntOrFloatInstance : Cell → Bool
  | .int _ => true
  | .num _ => true
  | .bool _ => true
  | _ => false

/-- The str() rendering used by clean_data_for_json on the values that
reach its fallback branch. -/
def pyStrCell : Cell → String
  | .na => "nan"
  | .int n => toString n
  | .num q => toString q.m ++ "e" ++ toString q.e
  | .bool b => if b then "True" else "False"
  | .str s => s
  | .ts y m d => padNum 4 y ++ "-" ++ padNum 2 m ++ "-" ++ padNum 2 d ++ " 00:00:00"

/-- True when a cell is a JSON-serializable primitive or null. -/
def isJsonPrimitive : Cell → Bool
  | .ts _ _ _ => false
  | _ => true

/-- A raw cattle slaughter CSV row, restricted to the columns that
process_csv_data reads or rewrites. -/
structure CsvRow where
  sectionName : Cell
  slaughter_date : Cell
  report_date : Cell
  unit : Cell
  volume : Cell
deriving DecidableEq

/-- An elementwise pandas equality comparison of a cell against a string
literal: true only for an equal string cell (missing and non-string
cells compare unequal). -/
def cellEqStr (c : Cell) (t : String) : Bool :=
  match c with
  | .str s => s == t
  | _ => false

/-- An elementwise pandas inequality comparison of a cell against a
string literal: missing and non-string cells compare as not equal. -/
def cellNeStr (c : Cell) (t : String) : Bool :=
  match c with
  | .str s => s != t
  | _ => true

/-- Embeds pd.to_numeric with errors coerce on one cell: numeric values
pass through, numeric strings parse, everything else becomes NaN. -/
def toNumericCoerce : Cell → Cell
  | .na => .na
  | .int n => .int n
  | .num q => .num q
  | .bool b => .bool b
  | .str s =>
    match parsePyFloat s with
    | some q => .num q
    | none => .na
  | .ts _ _ _ => .na

/-- The filter applied to the Report FIS Species rows before they are
routed to the cattle_slaughter table: slaughter_date not the literal
All, slaughter_date not missing, unit not the literal Pct. -/
def speciesKeep (r : CsvRow) : Bool :=
  cellNeStr r.slaughter_date "All" && !pd_isna r.slaughter_date
    && cellNeStr r.unit "Pct"

/-- The per-row cleaning of process_csv_data, parameterized by the
flexible pd.to_datetime with errors coerce (toDT), which the source
applies to the date columns before converting volume to numeric and
passing every column through clean_data_for_json. -/
def cleanCsvRow (toDT : Cell → Cell) (r : CsvRow) : CsvRow :=
  { sectionName := clean_data_for_json r.sectionName,
    slaughter_date := clean_data_for_json (toDT r.slaughter_date),
    report_date := clean_data_for_json (toDT r.report_date),
    unit := clean_data_for_json r.unit,
    volume := clean_data_for_json (toNumericCoerce r.volume) }

/-- The four per-table row collections produced by process_csv_data. -/
structure ProcessedTables where
  cattle_slaughter : List CsvRow
  meat_production : List CsvRow
  head_percent : List CsvRow
  region_data : List CsvRow
deriving DecidableEq

/-- Embeds process_csv_data of src/upload_to_supabase.py: route the rows
by their section label (the Report FIS Species rows additionally pass
the slaughter_date and unit filter) and clean each routed row. toDT
abstracts the flexible pd.to_datetime with errors coerce applied to the
date columns. -/
def process_csv_data (toDT : Cell → Cell) (df : List CsvRow) : ProcessedTables :=
  { cattle_slaughter :=
      (((df.filter (fun r => cellEqStr r.sectionName "Report FIS Species")).filter
        speciesKeep).map (cleanCsvRow toDT)),
    meat_production :=
      (df.filter (fun r => cellEqStr r.sectionName "Report FIS Meat Production")).map
        (cleanCsvRow toDT),
    head_percent :=
      (df.filter (fun r => cellEqStr r.sectionName "Report FIS Head Percent")).map
        (cleanCsvRow toDT),
    region_data :=
      (df.filter (fun r => cellEqStr r.sectionName "Report FIS Region")).map
        (cleanCsvRow toDT) }

/-! General lemmas about the error-propagating traversals. -/

theorem mapExcept_congr_ok {f : α → Except ε β} {g : α → β} :
    ∀ {l : List α}, (∀ a ∈ l, f a = .ok (g a)) → mapExcept f l = .ok (l.map g) := by
  intro l
  induction l with
  | nil => intro _; rfl
  | cons a as ih =>
    intro h
    have ha := h a (List.mem_cons_self a as)
    have has : ∀ x ∈ as, f x = .ok (g x) := fun x hx => h x (List.mem_cons_of_mem a hx)
    simp [mapExcept, ha, ih has]

theorem filterMapExcept_congr_ok {f : α → Except ε (Option β)} {p : α → Bool} {g : α → β} :
    ∀ {l : List α}, (∀ a ∈ l, f a = .ok (if p a then some (g a) else none)) →
      filterMapExcept f l = .ok ((l.filter p).map g) := by
  intro l
  induction l with
  | nil => intro _; rfl
  | cons a as ih =>
    intro h
    have ha := h a (List.mem_cons_self a as)
    have has : ∀ x ∈ as, f x = .ok (if p x then some (g x) else none) :=
      fun x hx => h x (List.mem_cons_of_mem a hx)
    cases hp : p a <;> simp [hp] at ha <;>
      simp [filterMapExcept, ha, ih has, List.filter, hp]

theorem mapExcept_ok_length {f : α → Except ε β} :
    ∀ {l : List α} {bs : List β}, mapExcept f l = .ok bs → bs.length = l.length := by
  intro l
  induction l with
  | nil =>
    intro bs h
    simp [mapExcept] at h
    simp [← h]
  | cons a as ih =>
    intro bs h
    simp only [mapExcept] at h
    cases hfa : f a with
    | error e => rw [hfa] at h; exact absurd h (by simp)
    | ok b =>
      rw [hfa] at h
      cases hrest : mapExcept f as with
      | error e => rw [hrest] at h; exact absurd h (by simp)
      | ok bs2 =>
        rw [hrest] at h
        cases h
        simp [ih hrest]

theorem mapExcept_map_congr {f f2 : α → Except ε β} {g : β → γ} :
    ∀ {l : List α}, (∀ a ∈ l, (f a).map g = (f2 a).map g) →
      (mapExcept f l).map (List.map g) = (mapExcept f2 l).map (List.map g) := by
  intro l
  induction l with
  | nil => intro _; rfl
  | cons a as ih =>
    intro h
    have ha := h a (List.mem_cons_self a as)
    have has : ∀ x ∈ as, (f x).map g = (f2 x).map g :=
      fun x hx => h x (List.mem_cons_of_mem a hx)
    have htail := ih has
    cases hfa : f a with
    | error e =>
      rw [hfa] at ha
      cases hfa2 : f2 a with
      | error e2 =>
        rw [hfa2] at ha
        simp [Except.map] at ha
        simp [mapExcept, hfa, hfa2, Except.map, ha]
      | ok b2 => rw [hfa2] at ha; exact absurd ha (by simp [Except.map])
    | ok b =>
      rw [hfa] at ha
      cases hfa2 : f2 a with
      | error e2 => rw [hfa2] at ha; exact absurd ha (by simp [Except.map])
      | ok b2 =>
        rw [hfa2] at ha
        simp [Except.map] at ha
        cases hrest : mapExcept f as with
        | error e =>
          rw [hrest] at htail
          cases hrest2 : mapExcept f2 as with
          | error e2 =>
            rw [hrest2] at htail
            simp [Except.map] at htail
            simp [mapExcept, hfa, hfa2, hrest, hrest2, Except.map, htail]
          | ok bs2 => rw [hrest2] at htail; exact absurd htail (by simp [Except.map])
        | ok bs =>
          rw [hrest] at htail
          cases hrest2 : mapExcept f2 as with
          | error e2 => rw [hrest2] at htail; exact absurd htail (by simp [Except.map])
          | ok bs2 =>
            rw [hrest2] at htail
            simp [Except.map] at htail
            simp [mapExcept, hfa, hfa2, hrest, hrest2, Except.map, ha, htail]

theorem filterMapExcept_map_congr {f f2 : α → Except ε (Option β)} {g : β → γ} :
    ∀ {l : List α}, (∀ a ∈ l, (f a).map (Option.map g) = (f2 a).map (Option.map g)) →
      (filterMapExcept f l).map (List.map g) = (filterMapExcept f2 l).map (List.map g) := by
  intro l
  induction l with
  | nil => intro _; rfl
  | cons a as ih =>
    intro h
    have ha := h a (List.mem_cons_self a as)
    have has : ∀ x ∈ as, (f x).map (Option.map g) = (f2 x).map (Option.map g) :=
      fun x hx => h x (List.mem_cons_of_mem a hx)
    have htail := ih has
    cases hfa : f a with
    | error e =>
      rw [hfa] at ha
      cases hfa2 : f2 a with
      | error e2 =>
        rw [hfa2] at ha
        simp [Except.map] at ha
        simp [filterMapExcept, hfa, hfa2, Except.map, ha]
      | ok b2 => rw [hfa2] at ha; exact absurd ha (by simp [Except.map])
    | ok ob =>
      rw [hfa] at ha
      cases hfa2 : f2 a with
      | error e2 => rw [hfa2] at ha; exact absurd ha (by simp [Except.map])
      | ok ob2 =>
        rw [hfa2] at ha
        simp [Except.map] at ha
        cases hob : ob with
        | none =>
          rw [hob] at ha
          cases hob2 : ob2 with
          | none => simp [filterMapExcept, hfa, hfa2, hob, hob2, htail]
          | some b2 => rw [hob2] at ha; exact absurd ha (by simp)
        | some b =>
          rw [hob] at ha
          cases hob2 : ob2 with
          | none => rw [hob2] at ha; exact absurd ha (by simp)
          | some b2 =>
            rw [hob2] at ha
            simp at ha
            cases hrest : filterMapExcept f as with
            | error e =>
              rw [hrest] at htail
              cases hrest2 : filterMapExcept f2 as with
              | error e2 =>
                rw [hrest2] at htail
                simp [Except.map] at htail
                simp [filterMapExcept, hfa, hfa2, hob, hob2, hrest, hrest2, Except.map, htail]
              | ok bs2 => rw [hrest2] at htail; exact absurd htail (by simp [Except.map])
            | ok bs =>
              rw [hrest] at htail
              cases hrest2 : filterMapExcept f2 as with
              | error e2 => rw [hrest2] at htail; exact absurd htail (by simp [Except.map])
              | ok bs2 =>
                rw [hrest2] at htail
                simp [Except.map] at htail
                simp [filterMapExcept, hfa, hfa2, hob, hob2, hrest, hrest2, Except.map, ha, htail]

/-! Specification-side definitions used to state the claims. -/

/-- The price column of a symbol is present in the row and non-null
(the emission condition stated by the spec for the wide-to-long pivot). -/
def priceSel (row : CommodityRow) (c : String) : Bool :=
  match List.lookup (c ++ "_price") row.cells with
  | some cell => !pd_isna cell
  | none => false

/-- The float value of a present numeric price cell (NaN on the cases
the emission condition or the numeric hypothesis rules out). -/
def priceValOf (row : CommodityRow) (c : String) : PyFloat :=
  match List.lookup (c ++ "_price") row.cells with
  | some (.num q) => .val q
  | _ => .nan

/-- The unit of a symbol as the spec states it: the paired unit column
value, or null when that column is absent or null. -/
def unitSel (row : CommodityRow) (c : String) : Option Cell :=
  match List.lookup (c ++ "_unit") row.cells with
  | none => none
  | some uc => if pd_isna uc then none else some uc

/-- Modelled from the words of the spec (section 4.4): for each symbol in
the fixed known-symbol list, emit one record exactly when the price
column is present and non-null, with the unit taken from the paired
unit column or null when absent or null. This is the specification
the implementation is compared against. -/
def commoditySpecRow (now : String) (row : CommodityRow) : List CommodityRecord :=
  (knownSymbols.filter (priceSel row)).map (fun c =>
    ⟨row.date, c, priceValOf row c, unitSel row c, now⟩)

/-- Every present price cell of a known symbol in the row is missing or a
float (the type contract of the wide-format frames built by
src/commodity_fetcher.py, whose price columns hold API rates). -/
def pricesNumeric (row : CommodityRow) : Bool :=
  knownSymbols.all (fun c =>
    match List.lookup (c ++ "_price") row.cells with
    | some (.num _) => true
    | some cell => pd_isna cell
    | none => true)

/-- The total date resolution of a cattle row: the date the lambda of
transform_cattle_data yields when it does not raise (none models NaT). -/
def dateOfOpt (r : CattleRow) : Option Ymd :=
  if isWeightDesc r then
    match r.report_date with
    | .str s => parseMDY4 s
    | _ => none
  else
    match r.slaughter_date with
    | .str s => parseMDY2 s
    | _ => none

/-- The report_date of a weight row is missing or parses in the
%m/%d/%Y format (the condition under which the date lambda does not
raise on the row). -/
def reportDateOk (r : CattleRow) : Bool :=
  !isWeightDesc r ||
    (match r.report_date with
     | .na => true
     | .str s => (parseMDY4 s).isSome
     | _ => false)

/-- The volume cell survives the float builtin (the condition under
which the record loop does not raise on the row). -/
def volumeOk (r : CattleRow) : Bool :=
  (pyFloatOfCell r.volume).isSome

/-- The record built from a row and its resolved date, as a total
function (NaN in the volume on the case volumeOk rules out). -/
def mkRecordT (now : String) (r : CattleRow) (d : Ymd) : CattleRecord :=
  ⟨ymdISO d,
   if pd_isna r.cls || r.cls == .str "" then .str "All" else r.cls,
   r.description,
   (pyFloatOfCell r.volume).getD .nan,
   r.unit,
   now⟩

/-- Erase the wall-clock field of a commodity record. -/
def eraseCreatedC (r : CommodityRecord) : CommodityRecord :=
  { r with created_at := "" }

/-- Erase the wall-clock field of a cattle record. -/
def eraseCreatedS (r : CattleRecord) : CattleRecord :=
  { r with created_at := "" }

/-! Concrete inputs used by counterexamples and witnesses. -/

/-- The scenario row of the spec, taken literally: the date field value
12/30/2024 placed in the slaughter_date column that the Head Slaughtered
branch reads, the commodity set to Cattle so that the row passes the
commodity filter. -/
def rowScenario2024 : CattleRow :=
  ⟨.str "Cattle", "Head Slaughtered", .str "", .na, .str "12/30/2024", .str "118000", .str "head"⟩

/-- The scenario row with the slaughter date written in the two-digit
year format the code actually parses. -/
def rowScenario24 : CattleRow :=
  ⟨.str "Cattle", "Head Slaughtered", .str "", .na, .str "12/30/24", .str "118000", .str "head"⟩

/-- A Live Weight row whose report_date is present but malformed. -/
def rowLiveWeightBadDate : CattleRow :=
  ⟨.str "Cattle", "Live Weight", .na, .str "garbage", .na, .str "5", .na⟩

/-- A Head Slaughtered row with a valid date and a non-numeric volume. -/
def rowVolumeAbc : CattleRow :=
  ⟨.str "Cattle", "Head Slaughtered", .na, .na, .str "12/28/24", .str "abc", .str "head"⟩

/-- A Head Slaughtered row with a valid date and a missing volume. -/
def rowVolumeNa : CattleRow :=
  ⟨.str "Cattle", "Head Slaughtered", .na, .na, .str "12/28/24", .na, .str "head"⟩

/-- A wide commodity row holding one BEEF price of 2.15 with unit lb and
a null CORN price. -/
def rowCommodityBeef : CommodityRow :=
  ⟨"2025-01-10", [("BEEF_price", .num ⟨215, -2⟩), ("BEEF_unit", .str "lb"), ("CORN_price", .na)]⟩

/-! Claim C8. -/

/-- C8: on an empty input both normalizers return an empty record list
and do not raise. -/
theorem c8_empty_input_yields_empty_output (now : String) :
    transform_commodity_data now [] = .ok [] ∧ transform_cattle_data now [] = .ok [] :=
  ⟨rfl, rfl⟩

/-! Claim C10. -/

/-- C10: clean_data_for_json is total on scalar cells: missing values
become null, int and float values are returned unchanged, any other
value is replaced by its str rendering, and the result is always a
JSON-serializable primitive or null. -/
theorem c10_clean_data_for_json_total (v : Cell) :
    (pd_isna v = true → clean_data_for_json v = .na)
    ∧ (isIntOrFloatInstance v = true → clean_data_for_json v = v)
    ∧ (pd_isna v = false → isIntOrFloatInstance v = false →
        clean_data_for_json v = .str (pyStrCell v))
    ∧ isJsonPrimitive (clean_data_for_json v) = true := by
  cases v <;>
    simp [pd_isna, isIntOrFloatInstance, clean_data_for_json, pyStrCell, isJsonPrimitive]

/-- Witness for C10 at concrete cells of each kind. -/
theorem c10_witness :
    clean_data_for_json .na = .na
    ∧ clean_data_for_json (.num ⟨215, -2⟩) = .num ⟨215, -2⟩
    ∧ clean_data_for_json (.ts 2024 12 30) = .str (pyStrCell (.ts 2024 12 30)) :=
  ⟨(c10_clean_data_for_json_total .na).1 rfl,
   (c10_clean_data_for_json_total (.num ⟨215, -2⟩)).2.1 rfl,
   (c10_clean_data_for_json_total (.ts 2024 12 30)).2.2.1 rfl rfl⟩

/-! Claim C7. -/

/-- C7 counterexample: on the scenario input row as the spec writes it,
with the date value 12/30/2024, the two-digit-year parse of the Head
Slaughtered branch fails, the row is coerced to NaT and dropped, and the
output is empty rather than the claimed single record. -/
theorem c7_counterexample :
    transform_cattle_data "T0" [rowScenario2024] = .ok []
    ∧ transform_cattle_data "T0" [rowScenario2024] ≠
        .ok [⟨"2024-12-30", .str "All", "Head Slaughtered", .val ⟨118, 3⟩, .str "head", "T0"⟩] := by
  refine ⟨by decide, ?_⟩
  decide

/-- C7 (amended): with the slaughter date written 12/30/24, in the
MM/DD/YY format the code parses, the single input row produces exactly
the record of the scenario (slaughter_date 2024-12-30, class All,
volume 118000.0, unit head); and in general every record built from a
row whose class is missing or empty carries the literal class All. -/
theorem c7_scenario_and_class_default (now : String) :
    transform_cattle_data now [rowScenario24] =
      .ok [⟨"2024-12-30", .str "All", "Head Slaughtered", .val ⟨118, 3⟩, .str "head", now⟩]
    ∧ (∀ (r : CattleRow) (d : Ymd) (rec : CattleRecord),
        (pd_isna r.cls = true ∨ r.cls = .str "") →
        buildRecord now r d = .ok rec → rec.cls = .str "All") := by
  constructor
  · rfl
  · intro r d rec h hb
    have hcond : (pd_isna r.cls || r.cls == .str "") = true := by
      rcases h with h | h
      · simp [h]
      · simp [h]
    simp only [buildRecord, hcond, if_pos] at hb
    cases hv : pyFloatOfCell r.volume with
    | none => rw [hv] at hb; exact absurd hb (by simp)
    | some v =>
      rw [hv] at hb
      cases hb
      rfl

/-- Witness for C7 at the corrected scenario row. -/
theorem c7_witness :
    transform_cattle_data "T7" [rowScenario24] =
      .ok [⟨"2024-12-30", .str "All", "Head Slaughtered", .val ⟨118, 3⟩, .str "head", "T7"⟩]
    ∧ (⟨"2024-12-30", .str "All", "Head Slaughtered", .val ⟨118, 3⟩, .str "head",
        "T7"⟩ : CattleRecord).cls = .str "All" :=
  ⟨(c7_scenario_and_class_default "T7").1,
   (c7_scenario_and_class_default "T7").2 rowScenario24 ⟨2024, 12, 30⟩ _ (Or.inr rfl) (by decide)⟩

/-! Claim C4. -/

/-- C4 counterexample: a row that reaches record construction with the
non-numeric volume abc makes the whole call raise; the row is not
retained with a null volume. -/
theorem c4_counterexample :
    transform_cattle_data "T4" [rowVolumeAbc] = .error "could not convert string to float" := by
  decide

/-- C4 (amended): the output volume is the float conversion of the raw
volume cell: a missing volume converts to NaN and the row is kept, a
numeric cell or a parseable numeric string converts to its value, but a
non-numeric string volume makes the record construction raise instead
of yielding null. -/
theorem c4_volume_conversion (now : String) (r : CattleRow) (d : Ymd) :
    (r.volume = .na →
      buildRecord now r d = .ok (mkRecordT now r d) ∧ (mkRecordT now r d).volume = .nan)
    ∧ (∀ q, r.volume = .num q →
        buildRecord now r d = .ok (mkRecordT now r d) ∧ (mkRecordT now r d).volume = .val q)
    ∧ (∀ s q, r.volume = .str s → parsePyFloat s = some q →
        buildRecord now r d = .ok (mkRecordT now r d) ∧ (mkRecordT now r d).volume = .val q)
    ∧ (∀ s, r.volume = .str s → parsePyFloat s = none →
        buildRecord now r d = .error "could not convert string to float") := by
  refine ⟨?_, ?_, ?_, ?_⟩
  · intro h
    simp [buildRecord, mkRecordT, pyFloatOfCell, h]
  · intro q h
    simp [buildRecord, mkRecordT, pyFloatOfCell, h]
  · intro s q h hp
    simp [buildRecord, mkRecordT, pyFloatOfCell, h, hp]
  · intro s h hp
    simp [buildRecord, pyFloatOfCell, h, hp]

/-- Witness for C4 at concrete volume cells. -/
theorem c4_witness :
    (buildRecord "T" rowVolumeNa ⟨2024, 12, 28⟩ = .ok (mkRecordT "T" rowVolumeNa ⟨2024, 12, 28⟩)
      ∧ (mkRecordT "T" rowVolumeNa ⟨2024, 12, 28⟩).volume = .nan)
    ∧ buildRecord "T" rowVolumeAbc ⟨2024, 12, 28⟩ = .error "could not convert string to float" :=
  ⟨(c4_volume_conversion "T" rowVolumeNa ⟨2024, 12, 28⟩).1 rfl,
   (c4_volume_conversion "T" rowVolumeAbc ⟨2024, 12, 28⟩).2.2.2 "abc" rfl (by decide)⟩

/-! Claim C6. -/

theorem makeRequestSteps_all429 (resp : Nat → HttpResp) (maxRetries : Nat)
    (hresp : ∀ j, resp j = .rateLimited none) :
    ∀ (k steps i retries : Nat), retries + k = maxRetries → k ≤ steps →
      makeRequestSteps resp maxRetries steps i retries =
        ⟨some (.error "Max retries exceeded"), k, List.replicate k 60⟩ := by
  intro k
  induction k with
  | zero =>
    intro steps i retries h _
    have hge : maxRetries ≤ retries := by omega
    cases steps <;> simp [makeRequestSteps, hge]
  | succ n ih =>
    intro steps i retries h hk
    have hn : ¬ maxRetries ≤ retries := by omega
    cases steps with
    | zero => omega
    | succ steps2 =>
      simp [makeRequestSteps, hn, hresp i,
        ih steps2 (i + 1) (retries + 1) (by omega) (by omega), List.replicate]

theorem makeRequestSteps_allOtherOk (resp : Nat → HttpResp) (maxRetries : Nat)
    (hresp : ∀ j, resp j = .otherOk 204) (h0 : 0 < maxRetries) :
    ∀ (steps i : Nat), makeRequestSteps resp maxRetries steps i 0 = ⟨none, steps, []⟩ := by
  intro steps
  have hn : ¬ maxRetries ≤ 0 := by omega
  induction steps with
  | zero => intro i; simp [makeRequestSteps, hn]
  | succ n ih => intro i; simp [makeRequestSteps, hn, hresp i, ih (i + 1)]

/-- C6 counterexample: against a server that always answers 429, the
request loop with the default budget of three, observed for ten loop
iterations, has already terminated: it made exactly three GET calls,
sleeping 60 seconds after each, and then raised Max retries exceeded.
The 429 path increments the retries counter, so it does count against
the retry budget and repeated 429 responses cannot retry indefinitely. -/
theorem c6_counterexample :
    make_request (fun _ => .rateLimited none) 10 =
      ⟨some (.error "Max retries exceeded"), 3, [60, 60, 60]⟩ := by
  decide

/-- C6 (amended): a 429 response makes the loop sleep for the Retry-After
duration (default 60) and retry, but this path increments the retries
counter, so it does count against the fixed retry budget: under
persistent 429 responses the call stops with Max retries exceeded after
exactly maxRetries GET calls instead of retrying indefinitely. By
contrast, a non-200 status below 400 falls through the raise_for_status
no-op and repeats the loop without touching the counter, so on such
responses the loop keeps issuing GET calls beyond any bound. -/
theorem c6_rate_limit_counts_against_budget (resp : Nat → HttpResp) (maxRetries : Nat) :
    (∀ i retries steps ra, resp i = .rateLimited ra → retries < maxRetries →
        makeRequestSteps resp maxRetries (steps + 1) i retries =
          ⟨(makeRequestSteps resp maxRetries steps (i + 1) (retries + 1)).outcome,
           (makeRequestSteps resp maxRetries steps (i + 1) (retries + 1)).calls + 1,
           ra.getD 60 :: (makeRequestSteps resp maxRetries steps (i + 1) (retries + 1)).sleeps⟩)
    ∧ ((∀ j, resp j = .rateLimited none) → ∀ steps, maxRetries ≤ steps →
        make_request resp steps maxRetries =
          ⟨some (.error "Max retries exceeded"), maxRetries, List.replicate maxRetries 60⟩)
    ∧ (∀ i retries steps c, resp i = .otherOk c → retries < maxRetries →
        makeRequestSteps resp maxRetries (steps + 1) i retries =
          ⟨(makeRequestSteps resp maxRetries steps (i + 1) retries).outcome,
           (makeRequestSteps resp maxRetries steps (i + 1) retries).calls + 1,
           (makeRequestSteps resp maxRetries steps (i + 1) retries).sleeps⟩)
    ∧ ((∀ j, resp j = .otherOk 204) → 0 < maxRetries → ∀ steps,
        make_request resp steps maxRetries = ⟨none, steps, []⟩) := by
  refine ⟨?_, ?_, ?_, ?_⟩
  · intro i retries steps ra h hlt
    have hn : ¬ maxRetries ≤ retries := by omega
    simp [makeRequestSteps, h, hn]
  · intro hresp steps hsteps
    exact makeRequestSteps_all429 resp maxRetries hresp maxRetries steps 0 0 (by omega) hsteps
  · intro i retries steps c h hlt
    have hn : ¬ maxRetries ≤ retries := by omega
    simp [makeRequestSteps, h, hn]
  · intro hresp h0 steps
    exact makeRequestSteps_allOtherOk resp maxRetries hresp h0 steps 0

/-- Witness for C6: a concrete always-429 oracle terminating after two
calls with budget two, one concrete 429 step and one concrete
fall-through step, and a concrete always-204 oracle still looping after
seven calls. -/
theorem c6_witness :
    makeRequestSteps (fun _ => .rateLimited none) 2 2 0 0 =
      ⟨(makeRequestSteps (fun _ => .rateLimited none) 2 1 1 1).outcome,
       (makeRequestSteps (fun _ => .rateLimited none) 2 1 1 1).calls + 1,
       60 :: (makeRequestSteps (fun _ => .rateLimited none) 2 1 1 1).sleeps⟩
    ∧ make_request (fun _ => .rateLimited none) 5 2 =
        ⟨some (.error "Max retries exceeded"), 2, List.replicate 2 60⟩
    ∧ makeRequestSteps (fun _ => .otherOk 204) 2 3 0 0 =
        ⟨(makeRequestSteps (fun _ => .otherOk 204) 2 2 1 0).outcome,
         (makeRequestSteps (fun _ => .otherOk 204) 2 2 1 0).calls + 1,
         (makeRequestSteps (fun _ => .otherOk 204) 2 2 1 0).sleeps⟩
    ∧ make_request (fun _ => .otherOk 204) 7 2 = ⟨none, 7, []⟩ :=
  ⟨(c6_rate_limit_counts_against_budget (fun _ => .rateLimited none) 2).1 0 0 1 none rfl
     (by decide),
   (c6_rate_limit_counts_against_budget (fun _ => .rateLimited none) 2).2.1 (fun _ => rfl) 5
     (by decide),
   (c6_rate_limit_counts_against_budget (fun _ => .otherOk 204) 2).2.2.1 0 0 2 204 rfl
     (by decide),
   (c6_rate_limit_counts_against_budget (fun _ => .otherOk 204) 2).2.2.2 (fun _ => rfl)
     (by decide) 7⟩

/-! Claim C5. -/

theorem symbolStep_erase (t1 t2 : String) (row : CommodityRow) (c : String) :
    (commoditySymbolStep t1 row c).map (Option.map eraseCreatedC) =
      (commoditySymbolStep t2 row c).map (Option.map eraseCreatedC) := by
  unfold commoditySymbolStep
  cases List.lookup (c ++ "_price") row.cells with
  | none => rfl
  | some cell =>
    cases h : pd_isna cell with
    | true => simp [h]
    | false =>
      cases hp : pyFloatOfCell cell with
      | none => simp [h, hp, Except.map]
      | some p => simp [h, hp, Except.map, eraseCreatedC]

theorem buildRecord_erase (t1 t2 : String) (r : CattleRow) (d : Ymd) :
    (buildRecord t1 r d).map eraseCreatedS = (buildRecord t2 r d).map eraseCreatedS := by
  unfold buildRecord
  cases hp : pyFloatOfCell r.volume with
  | none => simp [Except.map]
  | some v => simp [Except.map, eraseCreatedS]

theorem map_flatten_eq (f : β → γ) :
    ∀ (ls : List (List β)), (ls.flatten).map f = (ls.map (List.map f)).flatten := by
  intro ls
  induction ls with
  | nil => rfl
  | cons a as ih => simp [ih]

/-- C5 counterexample: the output records embed the wall-clock reading in
their created_at field, so the same raw input normalized at two
different times yields different record lists for both normalizers; the
transforms are not pure functions of the input alone. -/
theorem c5_counterexample :
    transform_commodity_data "2025-01-24T09:00:00" [rowCommodityBeef] ≠
      transform_commodity_data "2025-01-24T09:00:01" [rowCommodityBeef]
    ∧ transform_cattle_data "2025-01-24T09:00:00" [rowScenario24] ≠
        transform_cattle_data "2025-01-24T09:00:01" [rowScenario24] := by
  refine ⟨?_, ?_⟩ <;> decide

/-- C5 (amended): the two normalizers are deterministic in the pair of
the raw input and the clock reading: after erasing the created_at
timestamp field, the outputs of two calls on the same input at any two
times are identical, so with the clock held fixed normalizing twice
yields byte-identical records. -/
theorem c5_deterministic_modulo_created_at (t1 t2 : String)
    (df : List CommodityRow) (rows : List CattleRow) :
    (transform_commodity_data t1 df).map (List.map eraseCreatedC) =
      (transform_commodity_data t2 df).map (List.map eraseCreatedC)
    ∧ (transform_cattle_data t1 rows).map (List.map eraseCreatedS) =
        (transform_cattle_data t2 rows).map (List.map eraseCreatedS) := by
  constructor
  · have hrow : ∀ row ∈ df,
        (commodityRowRecords t1 row).map (List.map eraseCreatedC) =
          (commodityRowRecords t2 row).map (List.map eraseCreatedC) := by
      intro row _
      exact filterMapExcept_map_congr (fun c _ => symbolStep_erase t1 t2 row c)
    have hmain := mapExcept_map_congr (g := List.map eraseCreatedC) hrow
    unfold transform_commodity_data
    cases h1 : mapExcept (commodityRowRecords t1) df with
    | error e =>
      rw [h1] at hmain
      cases h2 : mapExcept (commodityRowRecords t2) df with
      | error e2 =>
        rw [h2] at hmain
        simp [Except.map] at hmain
        simp [Except.map, hmain]
      | ok ls2 => rw [h2] at hmain; exact absurd hmain (by simp [Except.map])
    | ok ls =>
      rw [h1] at hmain
      cases h2 : mapExcept (commodityRowRecords t2) df with
      | error e2 => rw [h2] at hmain; exact absurd hmain (by simp [Except.map])
      | ok ls2 =>
        rw [h2] at hmain
        simp [Except.map] at hmain
        simp [Except.map, map_flatten_eq, hmain]
  · unfold transform_cattle_data
    cases h : mapExcept (fun r => (rowDate r).map (fun d => (r, d))) (prepRows rows) with
    | error e => simp only [h]
    | ok dated =>
      simp only [h]
      exact mapExcept_map_congr (fun (p : CattleRow × Ymd) _ => buildRecord_erase t1 t2 p.1 p.2)

/-! Claim C2. -/

theorem commodityRow_ok (now : String) (row : CommodityRow) (h : pricesNumeric row = true) :
    commodityRowRecords now row = .ok (commoditySpecRow now row) := by
  unfold commodityRowRecords commoditySpecRow
  apply filterMapExcept_congr_ok
  intro c hc
  have hc2 := List.all_eq_true.mp h c hc
  cases hl : List.lookup (c ++ "_price") row.cells with
  | none => simp [commoditySymbolStep, priceSel, hl]
  | some cell =>
    rw [hl] at hc2
    cases cell with
    | na => simp [commoditySymbolStep, priceSel, hl, pd_isna]
    | num q =>
      simp [commoditySymbolStep, priceSel, priceValOf, unitSel, hl, pd_isna, pyFloatOfCell]
    | int n => simp [pd_isna] at hc2
    | bool b => simp [pd_isna] at hc2
    | str s => simp [pd_isna] at hc2
    | ts y m d => simp [pd_isna] at hc2

/-- C2: on wide-format input whose present price cells of known symbols
are floats or missing (the shape the commodity fetcher produces), the
transform emits, for every row, exactly one record per known symbol
whose price column is present and non-null, with the unit taken from
the paired unit column or null when absent or null, and no record for
any symbol outside the fixed known-symbol list. -/
theorem c2_wide_to_long_pivot (now : String) (df : List CommodityRow)
    (h : ∀ row ∈ df, pricesNumeric row = true) :
    transform_commodity_data now df = .ok ((df.map (commoditySpecRow now)).flatten)
    ∧ ∀ (row : CommodityRow) (rec : CommodityRecord),
        rec ∈ commoditySpecRow now row → rec.commodity_symbol ∈ knownSymbols := by
  constructor
  · have hm := mapExcept_congr_ok (g := commoditySpecRow now)
      (fun row hr => commodityRow_ok now row (h row hr))
    unfold transform_commodity_data
    simp [hm]
  · intro row rec hrec
    unfold commoditySpecRow at hrec
    rcases List.mem_map.mp hrec with ⟨c, hc, rfl⟩
    exact (List.mem_filter.mp hc).1

/-- Witness for C2 at a concrete one-row frame. -/
theorem c2_witness :
    transform_commodity_data "T2" [rowCommodityBeef] =
      .ok (([rowCommodityBeef].map (commoditySpecRow "T2")).flatten)
    ∧ ("BEEF" : String) ∈ knownSymbols :=
  ⟨(c2_wide_to_long_pivot "T2" [rowCommodityBeef] (by decide)).1,
   (c2_wide_to_long_pivot "T2" [rowCommodityBeef] (by decide)).2 rowCommodityBeef
     ⟨"2025-01-10", "BEEF", .val ⟨215, -2⟩, some (.str "lb"), "T2"⟩ (by decide)⟩

/-! Claim C9. -/

theorem cellNeStr_ne {c : Cell} {t : String} (h : cellNeStr c t = true) : c ≠ Cell.str t := by
  cases c with
  | str s =>
    intro hh
    cases hh
    simp [cellNeStr] at h
  | na => exact fun hh => Cell.noConfusion hh
  | int n => exact fun hh => Cell.noConfusion hh
  | num q => exact fun hh => Cell.noConfusion hh
  | bool b => exact fun hh => Cell.noConfusion hh
  | ts y m d => exact fun hh => Cell.noConfusion hh

/-- C9: process_csv_data routes to the cattle_slaughter table exactly the
cleaned rows whose section is Report FIS Species and that pass the
species filter, and every row passing that filter comes from the input
with that section, a non-missing slaughter_date different from the
literal All, and a unit different from the literal Pct; the other three
sections are routed to their tables by section label alone, without
that filter. -/
theorem c9_section_routing (toDT : Cell → Cell) (df : List CsvRow) :
    (process_csv_data toDT df).cattle_slaughter =
      ((df.filter (fun r => cellEqStr r.sectionName "Report FIS Species")).filter
        speciesKeep).map (cleanCsvRow toDT)
    ∧ (∀ r ∈ (df.filter (fun r => cellEqStr r.sectionName "Report FIS Species")).filter
          speciesKeep,
        r ∈ df ∧ cellEqStr r.sectionName "Report FIS Species" = true
          ∧ pd_isna r.slaughter_date = false
          ∧ r.slaughter_date ≠ .str "All"
          ∧ r.unit ≠ .str "Pct")
    ∧ (process_csv_data toDT df).meat_production =
        (df.filter (fun r => cellEqStr r.sectionName "Report FIS Meat Production")).map
          (cleanCsvRow toDT)
    ∧ (process_csv_data toDT df).head_percent =
        (df.filter (fun r => cellEqStr r.sectionName "Report FIS Head Percent")).map
          (cleanCsvRow toDT)
    ∧ (process_csv_data toDT df).region_data =
        (df.filter (fun r => cellEqStr r.sectionName "Report FIS Region")).map
          (cleanCsvRow toDT) := by
  refine ⟨rfl, ?_, rfl, rfl, rfl⟩
  intro r hr
  have h1 := List.mem_filter.mp hr
  have h2 := List.mem_filter.mp h1.1
  have hk := h1.2
  unfold speciesKeep at hk
  simp only [Bool.and_eq_true, Bool.not_eq_eq_eq_not, Bool.not_true] at hk
  obtain ⟨⟨hAll, hNa⟩, hPct⟩ := hk
  exact ⟨h2.1, h2.2, by simpa using hNa, cellNeStr_ne hAll, cellNeStr_ne hPct⟩

/-- A concrete species-section row passing the species filter. -/
def csvRowSpecies : CsvRow :=
  ⟨.str "Report FIS Species", .str "12/28/24", .str "12/30/2024", .str "head", .str "118000"⟩

/-- Witness for C9 at a concrete row. -/
theorem c9_witness :
    csvRowSpecies ∈ [csvRowSpecies]
    ∧ cellEqStr csvRowSpecies.sectionName "Report FIS Species" = true
    ∧ pd_isna csvRowSpecies.slaughter_date = false
    ∧ csvRowSpecies.slaughter_date ≠ .str "All"
    ∧ csvRowSpecies.unit ≠ .str "Pct" :=
  (c9_section_routing id [csvRowSpecies]).2.1 csvRowSpecies (by decide)

/-! Claim C3. -/

theorem insertWithRetry_calls_pos (s : Nat → Bool) (a n : Nat) :
    1 ≤ (insertWithRetry s a (n + 1)).1 := by
  cases h : s a <;> simp [insertWithRetry, h]

theorem insertWithRetry_fail_calls (s : Nat → Bool) :
    ∀ (n a : Nat), (insertWithRetry s a n).2 = false → (insertWithRetry s a n).1 = n := by
  intro n
  induction n with
  | zero => intro a _; rfl
  | succ k ih =>
    intro a h
    cases hs : s a with
    | true => simp [insertWithRetry, hs] at h
    | false =>
      simp only [insertWithRetry, hs, Bool.false_eq_true, if_false] at h ⊢
      rw [ih (a + 1) h]

theorem sum_map_ones {l : List β} {f : β → Nat} (h : ∀ b ∈ l, f b = 1) :
    (l.map f).sum = l.length := by
  induction l with
  | nil => rfl
  | cons a as ih =>
    simp [h a (List.mem_cons_self a as),
      ih (fun x hx => h x (List.mem_cons_of_mem a hx))]
    omega

/-- C3: the loader slices the records into consecutive batches of 50 and
produces one outcome per batch, with consecutive batch numbers, for
every behaviour of the remote store; when every insert succeeds on its
first attempt it issues exactly the ceiling of N over 50 insert calls
in total; a batch is always attempted at least once and a batch that
never succeeds makes exactly the three allowed insert calls before
being skipped, independently of the other batches; upload_cattle_data
runs the identical batch loop. -/
theorem c3_batch_loader (records : List α) (succ : Nat → Nat → Bool) :
    (upload_to_supabase records succ).length = (records.length + 49) / 50
    ∧ (upload_to_supabase records succ).map (fun o => o.batchNum) =
        (List.range ((records.length + 49) / 50)).map (fun k => k + 1)
    ∧ ((∀ bn, succ bn 0 = true) →
        totalInsertCalls (upload_to_supabase records succ) = (records.length + 49) / 50)
    ∧ (∀ o ∈ upload_to_supabase records succ,
        1 ≤ o.insertCalls ∧ (o.succeeded = false → o.insertCalls = 3))
    ∧ (∀ clearOk, (upload_cattle_data records clearOk succ).2 = upload_to_supabase records succ) := by
  refine ⟨?_, ?_, ?_, ?_, fun _ => rfl⟩
  · simp [upload_to_supabase, batchStarts]
  · unfold upload_to_supabase batchStarts
    rw [List.map_map, List.map_map]
    apply List.map_congr_left
    intro k _
    simp [Function.comp, Nat.mul_div_cancel]
  · intro hs
    unfold totalInsertCalls upload_to_supabase
    rw [List.map_map, sum_map_ones]
    · simp [batchStarts]
    · intro i _
      simp [Function.comp, insertWithRetry, hs (i / 50 + 1)]
  · intro o ho
    unfold upload_to_supabase at ho
    rcases List.mem_map.mp ho with ⟨i, _, rfl⟩
    refine ⟨insertWithRetry_calls_pos _ 0 2, ?_⟩
    intro hf
    exact insertWithRetry_fail_calls _ 3 0 hf

/-- Witness for C3: 120 records against an always-succeeding store make
three insert calls; against an always-failing store the first batch is
attempted exactly three times and skipped. -/
theorem c3_witness :
    totalInsertCalls (upload_to_supabase (List.range 120) (fun _ _ => true)) =
      ((List.range 120).length + 49) / 50
    ∧ 1 ≤ (⟨1, 50, 3, false⟩ : BatchOutcome).insertCalls
    ∧ (⟨1, 50, 3, false⟩ : BatchOutcome).insertCalls = 3 :=
  ⟨(c3_batch_loader (List.range 120) (fun _ _ => true)).2.2.1 (fun _ => rfl),
   ((c3_batch_loader (List.range 60) (fun _ _ => false)).2.2.2.1 ⟨1, 50, 3, false⟩ (by decide)).1,
   ((c3_batch_loader (List.range 60) (fun _ _ => false)).2.2.2.1 ⟨1, 50, 3, false⟩
     (by decide)).2 rfl⟩

/-! Claim C1. -/

theorem rowDate_eq {r : CattleRow} (h : reportDateOk r = true) :
    rowDate r = .ok (dateOfOpt r) := by
  unfold reportDateOk at h
  unfold rowDate dateOfOpt
  cases hw : isWeightDesc r with
  | false =>
    simp only [hw, Bool.false_eq_true, if_false]
    cases r.slaughter_date <;> rfl
  | true =>
    rw [hw] at h
    simp only [Bool.not_true, Bool.false_or] at h
    simp only [hw, if_true]
    cases hrd : r.report_date with
    | na => rfl
    | str s =>
      rw [hrd] at h
      simp at h
      cases hp : parseMDY4 s with
      | none => rw [hp] at h; simp at h
      | some d => simp [hp]
    | int n => rw [hrd] at h; simp at h
    | num q => rw [hrd] at h; simp at h
    | bool b => rw [hrd] at h; simp at h
    | ts y m dd => rw [hrd] at h; simp at h

theorem buildRecord_ok {now : String} {r : CattleRow} {d : Ymd} (h : volumeOk r = true) :
    buildRecord now r d = .ok (mkRecordT now r d) := by
  unfold volumeOk at h
  unfold buildRecord mkRecordT
  cases hv : pyFloatOfCell r.volume with
  | none => rw [hv] at h; simp at h
  | some v => simp [hv]

/-- C1 counterexample: a Live Weight row whose report_date is present but
malformed makes the whole transform raise instead of being excluded
from the output. -/
theorem c1_counterexample :
    transform_cattle_data "T1" [rowLiveWeightBadDate] =
      .error "time data garbage does not match format" := by
  decide

/-- C1 (amended): Live Weight and Dressed Weight rows take their date
from report_date in the MM/DD/YYYY format and Head Slaughtered and
Total Red Meat rows from slaughter_date in the MM/DD/YY format, but
only the slaughter_date branch coerces parse failures: provided every
filtered weight row has a missing or well-formed report_date (and the
surviving volumes convert), the call returns the records of exactly the
rows whose resolved date parsed, dropping the rest, and the output
cardinality never exceeds the input cardinality; a malformed
non-missing report_date instead raises. -/
theorem c1_date_resolution (now : String) (rows : List CattleRow)
    (h1 : ∀ r ∈ prepRows rows, reportDateOk r = true)
    (h2 : ∀ r ∈ prepRows rows, (dateOfOpt r).isSome = true → volumeOk r = true) :
    transform_cattle_data now rows =
      .ok ((prepRows rows).filterMap (fun r => (dateOfOpt r).map (mkRecordT now r)))
    ∧ ((prepRows rows).filterMap (fun r => (dateOfOpt r).map (mkRecordT now r))).length ≤
        rows.length := by
  have hstage1 : mapExcept (fun r => (rowDate r).map (fun d => (r, d))) (prepRows rows) =
      .ok ((prepRows rows).map (fun r => (r, dateOfOpt r))) := by
    apply mapExcept_congr_ok
    intro r hr
    rw [rowDate_eq (h1 r hr)]
    rfl
  have hvalid : (((prepRows rows).map (fun r => (r, dateOfOpt r))).filterMap
        (fun p => p.2.map (fun d => (p.1, d)))) =
      (prepRows rows).filterMap (fun r => (dateOfOpt r).map (fun d => (r, d))) := by
    rw [List.filterMap_map]
    rfl
  have hstage2 : mapExcept (fun p => buildRecord now p.1 p.2)
        ((prepRows rows).filterMap (fun r => (dateOfOpt r).map (fun d => (r, d)))) =
      .ok (((prepRows rows).filterMap (fun r => (dateOfOpt r).map (fun d => (r, d)))).map
        (fun p => mkRecordT now p.1 p.2)) := by
    apply mapExcept_congr_ok
    intro p hp
    rcases List.mem_filterMap.mp hp with ⟨r, hr, hfr⟩
    cases hdo : dateOfOpt r with
    | none => rw [hdo] at hfr; simp at hfr
    | some d =>
      rw [hdo] at hfr
      simp at hfr
      have hv : volumeOk r = true := h2 r hr (by simp [hdo])
      rw [← hfr]
      exact buildRecord_ok hv
  have hmapmap : (((prepRows rows).filterMap
          (fun r => (dateOfOpt r).map (fun d => (r, d)))).map
        (fun p => mkRecordT now p.1 p.2)) =
      (prepRows rows).filterMap (fun r => (dateOfOpt r).map (mkRecordT now r)) := by
    rw [List.map_filterMap]
    simp only [Option.map_map]
    rfl
  constructor
  · simp only [transform_cattle_data, hstage1]
    rw [hvalid, hstage2, hmapmap]
  · calc ((prepRows rows).filterMap (fun r => (dateOfOpt r).map (mkRecordT now r))).length
        ≤ (prepRows rows).length := List.length_filterMap_le _ _
      _ ≤ (rows.filter cattleFilter).length := List.length_filter_le _ _
      _ ≤ rows.length := List.length_filter_le _ _

/-- A Live Weight row with a well-formed report_date. -/
def rowLiveWeightGood : CattleRow :=
  ⟨.str "Cattle", "Live Weight", .na, .str "12/20/2024", .na, .str "100.5", .str "lbs"⟩

/-- A Total Red Meat row whose slaughter_date holds the literal All, as
the raw report feed does on aggregate rows; its coerced date is NaT. -/
def rowSlaughterAll : CattleRow :=
  ⟨.str "Cattle", "Total Red Meat", .na, .na, .str "All", .str "50", .str "lbs"⟩

/-- The concrete row list of the C1 witness. -/
def rowsC1 : List CattleRow := [rowLiveWeightGood, rowScenario24, rowSlaughterAll]

/-- Witness for C1 on three concrete rows: a good weight row, a good
head-count row, and a head-count row whose slaughter date fails to
parse and is dropped. -/
theorem c1_witness :
    transform_cattle_data "TW" rowsC1 =
      .ok ((prepRows rowsC1).filterMap (fun r => (dateOfOpt r).map (mkRecordT "TW" r))) :=
  (c1_date_resolution "TW" rowsC1 (by decide) (by decide)).1
